import Mathlib

/-!
# Verification of the Particle Lenia core (hyprlenia/chronos)

Shallow embedding, over the real numbers, of the parts of the repository that
the specification's claims talk about:

* the minimum-image toroidal metric `wrappedDist2` and the density /
  separation / growth / energy field loops of the display shader
  (src/unnamed/part_024);
* the host-side simulation object `ParticleLeniaSimulation` of
  src/unnamed/part_011 (double buffering in `step`, `addParticle`,
  `updateStats`, `resetParticles`) and the scene persistence of
  src/unnamed/part_012 (`saveScene` / `loadScene`);
* the per-particle energy pipeline and the integrator time step of the
  compute shader `shaders/particle_lenia_step.comp`, which the hosts load but
  whose source is not part of the snapshot; those definitions are modelled
  from the specification and are marked as such.

Shader floats are idealised as real numbers; RNG draws (both the
`std::mt19937` distribution outputs and the `std::random_device` entropy
feeding them) are passed in as explicit input streams.
-/

set_option maxHeartbeats 1000000

noncomputable section

namespace Hyprlenia

/-! ## Definitions -/

/-! ### Toroidal geometry (src/unnamed/part_024, `wrappedDist2`, lines 55-64) -/

/-- One axis of the minimum-image wrap: the shader's
`if (d.x > halfW) d.x -= u_WorldWidth; else if (d.x < -halfW) d.x += u_WorldWidth;`
with `halfW = u_WorldWidth * 0.5`. -/
def wrapCoord (w d : ℝ) : ℝ :=
  if d > w * 0.5 then d - w
  else if d < -(w * 0.5) then d + w
  else d

/-- `wrappedDist2(pos1, pos2)` of the display shader: the wrapped displacement
`d = pos2 - pos1` folded into the minimum image on each axis, then `dot(d, d)`. -/
def wrappedDist2 (W H : ℝ) (p q : ℝ × ℝ) : ℝ :=
  (wrapCoord W (q.1 - p.1)) ^ 2 + (wrapCoord H (q.2 - p.2)) ^ 2

/-! ### Field computation of the display shader (src/unnamed/part_024, lines 99-163)

The shader walks the particle buffer with stride `step = max(1, u_NumParticles / 100)`,
skips slots whose energy (`mass`, float offset 6 of the 15-float record) is
below `0.01`, and accumulates

* `density  += u_Wk * exp(-(dist - u_MuK)^2 / u_SigmaK2) * mass * step`
  whenever the squared wrapped distance is below `cutoff2 = (u_MuK + 3*sqrt(u_SigmaK2))^2`,
* `separation += 0.5 * (1 - dist)^2 * step` whenever it is below `1`,

and for field type 4 (energy landscape) shows `e = separation - growth` where
`growth = exp(-(density - u_MuG)^2 / u_SigmaG2)`. -/

/-- The uniforms the display shader's field loop reads. -/
structure FieldCfg where
  worldW : ℝ
  worldH : ℝ
  w_k : ℝ
  mu_k : ℝ
  sigma_k2 : ℝ
  mu_g : ℝ
  sigma_g2 : ℝ

/-- The slice of a 15-float particle record the field loop reads:
`READ_PARTICLE_POS(i)` (floats 0,1) and `READ_PARTICLE_MASS(i)` (float 6). -/
structure Slot where
  px : ℝ
  py : ℝ
  energy : ℝ

/-- A zeroed slot, the content of dead/unused entries of the buffer. -/
def deadSlot : Slot := ⟨0, 0, 0⟩

/-- `int step = max(1, u_NumParticles / 100);` (subsampling stride of the loop). -/
def strideOf (n : ℕ) : ℕ := max 1 (n / 100)

/-- Indices the strided loop `for (int i = 0; i < n; i += step)` visits. -/
def sampledIdx (n : ℕ) : List ℕ := (List.range n).filter (fun i => i % strideOf n == 0)

/-- The Gaussian-shell sensing kernel `u_Wk * exp(-r_diff*r_diff * invSigmaK2)`
with `r_diff = dist - u_MuK`, `invSigmaK2 = 1/u_SigmaK2`. -/
def kernelK (cfg : FieldCfg) (r : ℝ) : ℝ :=
  cfg.w_k * Real.exp (-((r - cfg.mu_k) ^ 2) / cfg.sigma_k2)

/-- `cutoff2 = (u_MuK + 3.0 * sqrt(u_SigmaK2))^2`. -/
def cutoff2 (cfg : FieldCfg) : ℝ := (cfg.mu_k + 3 * Real.sqrt cfg.sigma_k2) ^ 2

/-- One iteration's contribution to `density`: dead slots (`mass < 0.01`) are
skipped, contributions beyond the kernel cutoff are pruned, and a sampled
contribution is scaled by the stride (`* float(step)`). -/
def densityTerm (cfg : FieldCfg) (stride : ℕ) (x : ℝ × ℝ) (s : Slot) : ℝ :=
  if s.energy < 0.01 then 0
  else if wrappedDist2 cfg.worldW cfg.worldH x (s.px, s.py) < cutoff2 cfg then
    kernelK cfg (Real.sqrt (wrappedDist2 cfg.worldW cfg.worldH x (s.px, s.py))) * s.energy *
      (stride : ℝ)
  else 0

/-- One iteration's contribution to `separation`:
`if (d2 < 1.0) separation += 0.5 * (1.0 - dist)^2 * float(step)`. -/
def sepTerm (cfg : FieldCfg) (stride : ℕ) (x : ℝ × ℝ) (s : Slot) : ℝ :=
  if s.energy < 0.01 then 0
  else if wrappedDist2 cfg.worldW cfg.worldH x (s.px, s.py) < 1 then
    0.5 * (1 - Real.sqrt (wrappedDist2 cfg.worldW cfg.worldH x (s.px, s.py))) ^ 2 * (stride : ℝ)
  else 0

/-- The `density` accumulated by the shader's strided loop at query point `x`. -/
def densityAt (cfg : FieldCfg) (ps : List Slot) (x : ℝ × ℝ) : ℝ :=
  ((sampledIdx ps.length).map
    (fun i => densityTerm cfg (strideOf ps.length) x (ps.getD i deadSlot))).sum

/-- The `separation` accumulated by the shader's strided loop at query point `x`. -/
def separationAt (cfg : FieldCfg) (ps : List Slot) (x : ℝ × ℝ) : ℝ :=
  ((sampledIdx ps.length).map
    (fun i => sepTerm cfg (strideOf ps.length) x (ps.getD i deadSlot))).sum

/-- The growth function `exp(-(U - u_MuG)^2 / u_SigmaG2)` (field type 3). -/
def growthG (cfg : FieldCfg) (U : ℝ) : ℝ :=
  Real.exp (-((U - cfg.mu_g) ^ 2) / cfg.sigma_g2)

/-- The energy landscape of field type 4: `e = separation - growth`. -/
def energyFieldAt (cfg : FieldCfg) (ps : List Slot) (x : ℝ × ℝ) : ℝ :=
  separationAt cfg ps x - growthG cfg (densityAt cfg ps x)

/-- Follows the spec's words (for comparison against the code):
`R(x) = Σ_neighbors (c_rep/2) · max(1 − r, 0)²` over living neighbors at
wrapped distance `r`, with the configurable repulsion strength `c_rep`. -/
def specRepulsion (c_rep : ℝ) (cfg : FieldCfg) (x : ℝ × ℝ) : List Slot → ℝ
  | [] => 0
  | s :: rest =>
    (if s.energy < 0.01 then 0
     else c_rep / 2 *
       (max (1 - Real.sqrt (wrappedDist2 cfg.worldW cfg.worldH x (s.px, s.py))) 0) ^ 2) +
    specRepulsion c_rep cfg x rest

/-! ### Host-side particle store (src/unnamed/part_011, `ParticleLeniaSimulation`)

One particle record is 14 floats (`PARTICLE_FLOATS = 14`): position (3),
velocity (3), energy, species, age, dna[5]. -/

/-- The 14-float particle record of the 3D host (part_011 lines 107-117). -/
structure Particle14 where
  x : ℝ
  y : ℝ
  z : ℝ
  vx : ℝ
  vy : ℝ
  vz : ℝ
  energy : ℝ
  species : ℝ
  age : ℝ
  dna0 : ℝ
  dna1 : ℝ
  dna2 : ℝ
  dna3 : ℝ
  dna4 : ℝ

/-- A zeroed (dead/inactive) record, as written by `resetParticles` for slots
beyond `numParticles` (part_011 lines 337-342). -/
def deadParticle : Particle14 :=
  ⟨0, 0, 0, 0, 0, 0, 0, 0, 0, 0, 0, 0, 0, 0⟩

/-- The host simulation state the claims touch: the double-buffered particle
pool (`particleBufferA` / `particleBufferB`), the flag `useBufferA` selecting
which buffer is current, and the cached `aliveCount` statistic. -/
structure HostSim where
  bufA : List Particle14
  bufB : List Particle14
  useA : Bool
  aliveCount : ℤ

/-- The buffer consumers read (`useBufferA ? particleBufferA : particleBufferB`). -/
def activeBuf (s : HostSim) : List Particle14 := if s.useA then s.bufA else s.bufB

/-- The other buffer of the pair. -/
def inactiveBuf (s : HostSim) : List Particle14 := if s.useA then s.bufB else s.bufA

/-- `step()` (part_011 lines 351-429): the compute dispatch reads `readBuffer`
(the current buffer) through binding `ParticlesIn` and writes `writeBuffer`
(the other one) through `ParticlesOut`; afterwards `useBufferA = !useBufferA`.
The compute shader itself is abstracted as a function `f` from the read
buffer's contents to the write buffer's contents. -/
def stepBuffers (f : List Particle14 → List Particle14) (s : HostSim) : HostSim :=
  let readBuffer := if s.useA then s.bufA else s.bufB
  { bufA := if s.useA then s.bufA else f readBuffer
    bufB := if s.useA then f readBuffer else s.bufB
    useA := !s.useA
    aliveCount := s.aliveCount }

/-- The selector of the buffer a tick reads from (`useBufferA`). -/
def readsFrom (s : HostSim) : Bool := s.useA

/-- The selector of the buffer a tick writes to (the other one). -/
def writesTo (s : HostSim) : Bool := !s.useA

/-- The linear scan of `addParticle` for the first slot with
`data[base + 6] < 0.01f` (a dead slot). -/
def findDead : List Particle14 → Option ℕ
  | [] => none
  | p :: rest => if p.energy < 0.01 then some 0 else (findDead rest).map (· + 1)

/-- `addParticle(x, y, z)` (part_011 lines 599-632): copy the active buffer,
scan for a dead slot; if one exists overwrite it with a fresh particle
(velocity 0, energy 1, age 0, species and dna drawn from the member RNG,
passed here as explicit draws), push the data to *both* buffers and increment
`aliveCount`; if none exists the loop falls through and nothing happens. -/
def addParticle (s : HostSim) (x y z speciesDraw : ℝ) (dnaDraw : Fin 5 → ℝ) : HostSim :=
  match findDead (activeBuf s) with
  | none => s
  | some i =>
    let fresh : Particle14 :=
      { x := x, y := y, z := z, vx := 0, vy := 0, vz := 0, energy := 1,
        species := speciesDraw, age := 0,
        dna0 := dnaDraw 0, dna1 := dnaDraw 1, dna2 := dnaDraw 2,
        dna3 := dnaDraw 3, dna4 := dnaDraw 4 }
    let d := (activeBuf s).set i fresh
    { bufA := d, bufB := d, useA := s.useA, aliveCount := s.aliveCount + 1 }

/-- The slots `updateStats` counts as alive: `energy > 0.01f`. -/
def aliveSlots (l : List Particle14) : List Particle14 :=
  l.filter (fun p => decide ((0.01 : ℝ) < p.energy))

/-- Number of alive slots in a buffer. -/
def countAlive (l : List Particle14) : ℕ := (aliveSlots l).length

/-- The aggregate statistics `updateStats` publishes. -/
structure Stats where
  aliveCount : ℕ
  avgEnergy : ℝ
  avgAge : ℝ

/-- The reduction loop of `updateStats` (part_011 lines 581-592): for every
slot with `energy > 0.01f` increment the count and accumulate energy and age. -/
def statsFold (l : List Particle14) : ℕ × ℝ × ℝ :=
  l.foldl
    (fun acc p =>
      if (0.01 : ℝ) < p.energy then (acc.1 + 1, acc.2.1 + p.energy, acc.2.2 + p.age) else acc)
    (0, 0, 0)

/-- `updateStats()` (part_011 lines 573-597): run the reduction, then
`avgEnergy = aliveCount > 0 ? totalEnergy / aliveCount : 0` and likewise for
`avgAge`. -/
def updateStats (l : List Particle14) : Stats :=
  let t := statsFold l
  { aliveCount := t.1
    avgEnergy := if 0 < t.1 then t.2.1 / (t.1 : ℝ) else 0
    avgAge := if 0 < t.1 then t.2.2 / (t.1 : ℝ) else 0 }

/-- `resetParticles()` (part_011 lines 297-349): slot `i < numParticles` gets a
random position, zero velocity, energy 1, a random species, age 0 and five
random dna genes; every other slot is zeroed.  The thread-local
`std::mt19937(std::random_device{}() + omp_get_thread_num())` distribution
outputs are abstracted as the input stream `draws`: live slot `i` consumes
nine draws (x, y, z, species, dna[0..4]). -/
def resetParticles (numParticles maxParticles : ℕ) (draws : ℕ → ℝ) : List Particle14 :=
  (List.range maxParticles).map fun i =>
    if i < numParticles then
      { x := draws (9 * i), y := draws (9 * i + 1), z := draws (9 * i + 2),
        vx := 0, vy := 0, vz := 0, energy := 1,
        species := draws (9 * i + 3), age := 0,
        dna0 := draws (9 * i + 4), dna1 := draws (9 * i + 5), dna2 := draws (9 * i + 6),
        dna3 := draws (9 * i + 7), dna4 := draws (9 * i + 8) }
    else deadParticle

/-! ### Scene persistence (src/unnamed/part_012, `saveScene` lines 1235-1292,
`loadScene` lines 1294-1367)

`saveScene` writes one `key=value` line per parameter; `loadScene` splits each
line at `=` and assigns the matching field via `std::stof` / `std::stoi`,
then calls `init()` which rebuilds the buffers and re-seeds the particles.
`saveScene` writes floats through a default-constructed `std::ofstream`, whose
`operator<<` prints at the default precision of 6 significant digits — a lossy
encoding, modelled by the decimal rounding `sig6` below.  Ints and bools print
exactly (bools as `0`/`1`), and `std::stof` parses the printed decimal. -/

/-- A serialized scene value: a float field, an int/bool field (bools are
printed as `0`/`1` and read back with `std::stoi`), or a string field. -/
inductive SceneVal where
  | fv (q : ℝ)
  | iv (n : ℤ)
  | sv (s : String)

/-- `std::stof` on a serialized value: it parses the printed decimal exactly
(the information loss of the save/load path happens when `saveScene` prints
the float at precision 6, see `sig6`). -/
def stofV : SceneVal → ℝ
  | .fv q => q
  | .iv n => (n : ℝ)
  | .sv _ => 0

/-- `std::stoi` on a serialized value. -/
def stoiV : SceneVal → ℤ
  | .fv q => ⌊q⌋
  | .iv n => n
  | .sv _ => 0

/-- The C++ `int`-to-`bool` conversion applied by assignments like
`params.evolutionEnabled = std::stoi(val)`. -/
def stobV (v : SceneVal) : Bool := stoiV v != 0

/-- The raw string of a serialized value (for `goalImagePath`). -/
def strV : SceneVal → String
  | .sv s => s
  | _ => ""

/-- How `operator<<` serializes a `bool` (as `1` or `0`). -/
def boolVal (b : Bool) : SceneVal := .iv (if b then 1 else 0)

/-- The value a float field holds after being printed by `operator<<` at the
default precision of 6 significant digits and parsed back: the mantissa
`x / 10^(e-5)` (where `10^e ≤ |x| < 10^(e+1)`) is rounded to an integer and
re-scaled.  Tie-breaking details of the C library's rounding are immaterial
for the values considered here; `0` prints as `0`. -/
def sig6 (x : ℝ) : ℝ :=
  if x = 0 then 0
  else (round (x / (10 : ℝ) ^ (⌊Real.logb 10 |x|⌋ - 5)) : ℝ) *
    (10 : ℝ) ^ (⌊Real.logb 10 |x|⌋ - 5)

/-- The `SimulationParams` record of part_012 (lines 944-1022); float fields
are modelled as reals, int fields as integers. -/
structure Params where
  worldWidth : ℝ
  worldHeight : ℝ
  worldDepth : ℝ
  numParticles : ℤ
  maxParticles : ℤ
  w_k : ℝ
  mu_k : ℝ
  sigma_k2 : ℝ
  mu_g : ℝ
  sigma_g2 : ℝ
  c_rep : ℝ
  dt : ℝ
  h : ℝ
  evolutionEnabled : Bool
  birthRate : ℝ
  deathRate : ℝ
  mutationRate : ℝ
  energyDecay : ℝ
  energyFromGrowth : ℝ
  translateX : ℝ
  translateY : ℝ
  translateZ : ℝ
  zoom : ℝ
  stepsPerFrame : ℤ
  showFields : Bool
  fieldType : ℤ
  foodEnabled : Bool
  foodSpawnRate : ℝ
  foodDecayRate : ℝ
  foodMaxAmount : ℝ
  foodConsumptionRadius : ℝ
  showFood : Bool
  view3D : Bool
  cameraAngle : ℝ
  cameraRotation : ℝ
  cameraDistance : ℝ
  heightScale : ℝ
  glowIntensity : ℝ
  showWireframe : Bool
  ambientLight : ℝ
  particleSize : ℝ
  interactionMode : ℤ
  brushRadius : ℝ
  forceStrength : ℝ
  goalMode : ℤ
  goalStrength : ℝ
  showGoal : Bool
  goalImagePath : String

/-- `saveScene` (part_012 lines 1235-1292): the `key=value` lines, in the
order the code writes them; every float field goes through the ostream's
6-significant-digit formatting `sig6`. -/
def saveScene (p : Params) : List (String × SceneVal) :=
  [("worldWidth", .fv (sig6 p.worldWidth)),
   ("worldHeight", .fv (sig6 p.worldHeight)),
   ("worldDepth", .fv (sig6 p.worldDepth)),
   ("numParticles", .iv p.numParticles),
   ("maxParticles", .iv p.maxParticles),
   ("w_k", .fv (sig6 p.w_k)),
   ("mu_k", .fv (sig6 p.mu_k)),
   ("sigma_k2", .fv (sig6 p.sigma_k2)),
   ("mu_g", .fv (sig6 p.mu_g)),
   ("sigma_g2", .fv (sig6 p.sigma_g2)),
   ("c_rep", .fv (sig6 p.c_rep)),
   ("dt", .fv (sig6 p.dt)),
   ("h", .fv (sig6 p.h)),
   ("evolutionEnabled", boolVal p.evolutionEnabled),
   ("birthRate", .fv (sig6 p.birthRate)),
   ("deathRate", .fv (sig6 p.deathRate)),
   ("mutationRate", .fv (sig6 p.mutationRate)),
   ("energyDecay", .fv (sig6 p.energyDecay)),
   ("energyFromGrowth", .fv (sig6 p.energyFromGrowth)),
   ("translateX", .fv (sig6 p.translateX)),
   ("translateY", .fv (sig6 p.translateY)),
   ("translateZ", .fv (sig6 p.translateZ)),
   ("zoom", .fv (sig6 p.zoom)),
   ("stepsPerFrame", .iv p.stepsPerFrame),
   ("showFields", boolVal p.showFields),
   ("fieldType", .iv p.fieldType),
   ("foodEnabled", boolVal p.foodEnabled),
   ("foodSpawnRate", .fv (sig6 p.foodSpawnRate)),
   ("foodDecayRate", .fv (sig6 p.foodDecayRate)),
   ("foodMaxAmount", .fv (sig6 p.foodMaxAmount)),
   ("foodConsumptionRadius", .fv (sig6 p.foodConsumptionRadius)),
   ("showFood", boolVal p.showFood),
   ("view3D", boolVal p.view3D),
   ("cameraAngle", .fv (sig6 p.cameraAngle)),
   ("cameraRotation", .fv (sig6 p.cameraRotation)),
   ("cameraDistance", .fv (sig6 p.cameraDistance)),
   ("heightScale", .fv (sig6 p.heightScale)),
   ("glowIntensity", .fv (sig6 p.glowIntensity)),
   ("showWireframe", boolVal p.showWireframe),
   ("ambientLight", .fv (sig6 p.ambientLight)),
   ("particleSize", .fv (sig6 p.particleSize)),
   ("interactionMode", .iv p.interactionMode),
   ("brushRadius", .fv (sig6 p.brushRadius)),
   ("forceStrength", .fv (sig6 p.forceStrength)),
   ("goalMode", .iv p.goalMode),
   ("goalStrength", .fv (sig6 p.goalStrength)),
   ("showGoal", boolVal p.showGoal),
   ("goalImagePath", .sv p.goalImagePath)]

/-- A parameter record with every float field replaced by its
6-significant-digit decimal rounding (int, bool and string fields kept):
what one save/load cycle can restore at best. -/
def sig6Params (p : Params) : Params :=
  { worldWidth := sig6 p.worldWidth, worldHeight := sig6 p.worldHeight,
    worldDepth := sig6 p.worldDepth,
    numParticles := p.numParticles, maxParticles := p.maxParticles,
    w_k := sig6 p.w_k, mu_k := sig6 p.mu_k, sigma_k2 := sig6 p.sigma_k2,
    mu_g := sig6 p.mu_g, sigma_g2 := sig6 p.sigma_g2,
    c_rep := sig6 p.c_rep, dt := sig6 p.dt, h := sig6 p.h,
    evolutionEnabled := p.evolutionEnabled,
    birthRate := sig6 p.birthRate, deathRate := sig6 p.deathRate,
    mutationRate := sig6 p.mutationRate, energyDecay := sig6 p.energyDecay,
    energyFromGrowth := sig6 p.energyFromGrowth,
    translateX := sig6 p.translateX, translateY := sig6 p.translateY,
    translateZ := sig6 p.translateZ, zoom := sig6 p.zoom,
    stepsPerFrame := p.stepsPerFrame, showFields := p.showFields,
    fieldType := p.fieldType, foodEnabled := p.foodEnabled,
    foodSpawnRate := sig6 p.foodSpawnRate, foodDecayRate := sig6 p.foodDecayRate,
    foodMaxAmount := sig6 p.foodMaxAmount,
    foodConsumptionRadius := sig6 p.foodConsumptionRadius,
    showFood := p.showFood, view3D := p.view3D,
    cameraAngle := sig6 p.cameraAngle, cameraRotation := sig6 p.cameraRotation,
    cameraDistance := sig6 p.cameraDistance, heightScale := sig6 p.heightScale,
    glowIntensity := sig6 p.glowIntensity, showWireframe := p.showWireframe,
    ambientLight := sig6 p.ambientLight, particleSize := sig6 p.particleSize,
    interactionMode := p.interactionMode, brushRadius := sig6 p.brushRadius,
    forceStrength := sig6 p.forceStrength, goalMode := p.goalMode,
    goalStrength := sig6 p.goalStrength, showGoal := p.showGoal,
    goalImagePath := p.goalImagePath }

/-- One iteration of `loadScene`'s line loop: the `if (key == ...) params.x = ...`
chain of part_012 lines 1310-1360.  `goalImagePath` is copied only when the
value is shorter than the 256-byte field. -/
def loadLine (p : Params) (kv : String × SceneVal) : Params :=
  if kv.1 = "worldWidth" then { p with worldWidth := stofV kv.2 }
  else if kv.1 = "worldHeight" then { p with worldHeight := stofV kv.2 }
  else if kv.1 = "worldDepth" then { p with worldDepth := stofV kv.2 }
  else if kv.1 = "numParticles" then { p with numParticles := stoiV kv.2 }
  else if kv.1 = "maxParticles" then { p with maxParticles := stoiV kv.2 }
  else if kv.1 = "w_k" then { p with w_k := stofV kv.2 }
  else if kv.1 = "mu_k" then { p with mu_k := stofV kv.2 }
  else if kv.1 = "sigma_k2" then { p with sigma_k2 := stofV kv.2 }
  else if kv.1 = "mu_g" then { p with mu_g := stofV kv.2 }
  else if kv.1 = "sigma_g2" then { p with sigma_g2 := stofV kv.2 }
  else if kv.1 = "c_rep" then { p with c_rep := stofV kv.2 }
  else if kv.1 = "dt" then { p with dt := stofV kv.2 }
  else if kv.1 = "h" then { p with h := stofV kv.2 }
  else if kv.1 = "evolutionEnabled" then { p with evolutionEnabled := stobV kv.2 }
  else if kv.1 = "birthRate" then { p with birthRate := stofV kv.2 }
  else if kv.1 = "deathRate" then { p with deathRate := stofV kv.2 }
  else if kv.1 = "mutationRate" then { p with mutationRate := stofV kv.2 }
  else if kv.1 = "energyDecay" then { p with energyDecay := stofV kv.2 }
  else if kv.1 = "energyFromGrowth" then { p with energyFromGrowth := stofV kv.2 }
  else if kv.1 = "translateX" then { p with translateX := stofV kv.2 }
  else if kv.1 = "translateY" then { p with translateY := stofV kv.2 }
  else if kv.1 = "translateZ" then { p with translateZ := stofV kv.2 }
  else if kv.1 = "zoom" then { p with zoom := stofV kv.2 }
  else if kv.1 = "stepsPerFrame" then { p with stepsPerFrame := stoiV kv.2 }
  else if kv.1 = "showFields" then { p with showFields := stobV kv.2 }
  else if kv.1 = "fieldType" then { p with fieldType := stoiV kv.2 }
  else if kv.1 = "foodEnabled" then { p with foodEnabled := stobV kv.2 }
  else if kv.1 = "foodSpawnRate" then { p with foodSpawnRate := stofV kv.2 }
  else if kv.1 = "foodDecayRate" then { p with foodDecayRate := stofV kv.2 }
  else if kv.1 = "foodMaxAmount" then { p with foodMaxAmount := stofV kv.2 }
  else if kv.1 = "foodConsumptionRadius" then { p with foodConsumptionRadius := stofV kv.2 }
  else if kv.1 = "showFood" then { p with showFood := stobV kv.2 }
  else if kv.1 = "view3D" then { p with view3D := stobV kv.2 }
  else if kv.1 = "cameraAngle" then { p with cameraAngle := stofV kv.2 }
  else if kv.1 = "cameraRotation" then { p with cameraRotation := stofV kv.2 }
  else if kv.1 = "cameraDistance" then { p with cameraDistance := stofV kv.2 }
  else if kv.1 = "heightScale" then { p with heightScale := stofV kv.2 }
  else if kv.1 = "glowIntensity" then { p with glowIntensity := stofV kv.2 }
  else if kv.1 = "showWireframe" then { p with showWireframe := stobV kv.2 }
  else if kv.1 = "ambientLight" then { p with ambientLight := stofV kv.2 }
  else if kv.1 = "particleSize" then { p with particleSize := stofV kv.2 }
  else if kv.1 = "interactionMode" then { p with interactionMode := stoiV kv.2 }
  else if kv.1 = "brushRadius" then { p with brushRadius := stofV kv.2 }
  else if kv.1 = "forceStrength" then { p with forceStrength := stofV kv.2 }
  else if kv.1 = "goalMode" then { p with goalMode := stoiV kv.2 }
  else if kv.1 = "goalStrength" then { p with goalStrength := stofV kv.2 }
  else if kv.1 = "showGoal" then { p with showGoal := stobV kv.2 }
  else if kv.1 = "goalImagePath" then
    (if (strV kv.2).length < 256 then { p with goalImagePath := strV kv.2 } else p)
  else p

/-- The parameter part of `loadScene`: fold the line loop over the file. -/
def loadParams (file : List (String × SceneVal)) (p : Params) : Params :=
  file.foldl loadLine p

/-- The simulation state `init()` rebuilds after a load: buffers of
`maxParticles * PARTICLE_FLOATS` floats and `aliveCount = numParticles`
(set by `resetParticles`). -/
structure SimState where
  params : Params
  bufferSize : ℤ
  aliveCount : ℤ

/-- `init()` (part_012 lines 1076-1108): allocate both buffers with
`maxParticles * 14` floats and reset the particles, which sets
`aliveCount = numParticles`. -/
def initSim (p : Params) : SimState :=
  { params := p, bufferSize := p.maxParticles * 14, aliveCount := p.numParticles }

/-- `loadScene` (part_012 lines 1294-1367): fold the parameter assignments
over the file, then `init()` to apply them. -/
def loadScene (file : List (String × SceneVal)) (s : SimState) : SimState :=
  initSim (loadParams file s.params)

/-- The default-constructed `SimulationParams` of part_012 lines 944-1022. -/
def defaultParams : Params :=
  { worldWidth := 40, worldHeight := 40, worldDepth := 40,
    numParticles := 500, maxParticles := 2000,
    w_k := 0.022, mu_k := 4, sigma_k2 := 1, mu_g := 0.6, sigma_g2 := 0.0225,
    c_rep := 1, dt := 0.1, h := 0.01,
    evolutionEnabled := false,
    birthRate := 0.001, deathRate := 0, mutationRate := 0.1,
    energyDecay := 0, energyFromGrowth := 0.01,
    translateX := 0, translateY := 0, translateZ := 0, zoom := 1,
    stepsPerFrame := 5, showFields := true, fieldType := 3,
    foodEnabled := true, foodSpawnRate := 0.002, foodDecayRate := 0.001,
    foodMaxAmount := 1, foodConsumptionRadius := 2, showFood := true,
    view3D := true, cameraAngle := 45, cameraRotation := 0, cameraDistance := 60,
    heightScale := 10, glowIntensity := 1.5, showWireframe := false,
    ambientLight := 0.5, particleSize := 20,
    interactionMode := 0, brushRadius := 5, forceStrength := 0.5,
    goalMode := 0, goalStrength := 0.1, showGoal := false,
    goalImagePath := "goal.bmp" }

/-! ### The step compute shader, modelled from the spec

The hosts load `shaders/particle_lenia_step.comp` (part_011 line 171) and feed
it every simulation uniform, but the shader's source file is not part of the
snapshot; the two definitions below are therefore modelled from the
specification text rather than translated from code. -/

/-- Clamping of energy into `[0,1]`. -/
def clamp01 (e : ℝ) : ℝ := min 1 (max 0 e)

/-- Modelled from the spec: the per-particle energy pipeline of the missing
compute shader `shaders/particle_lenia_step.comp`.  A living particle loses
`energyDecay`, gains `energyFromGrowth * G(U)`, receives the signed predation
transfer and the consumed food, and "energy is always clamped to [0,1] after
any adjustment"; a newborn starts from a clamped birth value; a dead slot has
all fields zero. -/
def stepEnergy (alive born : Bool) (e decay growthGain predDelta foodGain birthEnergy : ℝ) :
    ℝ :=
  if alive then
    clamp01 (clamp01 (clamp01 (e - decay + growthGain) + predDelta) + foodGain)
  else if born then clamp01 birthEnergy
  else 0

/-- Modelled from the spec: the integrator's stability ceiling, "`dt` is
clamped to a stability ceiling (e.g. ≤ 0.033) regardless of requested step
size".  The ceiling value matches the visible sibling integrators
(src/chronos/src/ParticleLife3D.cpp line 41 and ParticleLifeCUDA.cu line 197:
`deltaTime = min(deltaTime, 0.033f)`). -/
def effectiveDt (dtReq : ℝ) : ℝ := min dtReq 0.033

/-- Modelled from the spec: the velocity/position update of the missing
compute shader, `velocity -= gradE * dt` then `position += velocity * dt`,
performed with the clamped time step. -/
def integrate (v p gradE dtReq : ℝ) : ℝ × ℝ :=
  let dtE := effectiveDt dtReq
  let v2 := v - gradE * dtE
  (v2, p + v2 * dtE)

/-! ## Helper lemmas -/

theorem wrapCoord_neg (w d : ℝ) (hw : 0 ≤ w) : wrapCoord w (-d) = -(wrapCoord w d) := by
  simp only [wrapCoord]
  split_ifs <;> linarith

theorem wrapCoord_abs_le (w d : ℝ) (hw : 0 < w) (hd : |d| ≤ w) : |wrapCoord w d| ≤ w / 2 := by
  rw [abs_le] at hd ⊢
  simp only [wrapCoord]
  split_ifs <;> constructor <;> linarith

theorem wrappedDist2_nonneg (W H : ℝ) (p q : ℝ × ℝ) : 0 ≤ wrappedDist2 W H p q := by
  unfold wrappedDist2; positivity

theorem strideOf_eq_one {n : ℕ} (h : n ≤ 100) : strideOf n = 1 := by
  simp only [strideOf]
  omega

theorem sampledIdx_of_le {n : ℕ} (h : n ≤ 100) : sampledIdx n = List.range n := by
  unfold sampledIdx
  rw [strideOf_eq_one h]
  refine List.filter_eq_self.mpr fun a _ => ?_
  simp [Nat.mod_one]

theorem sum_map_range_zero (f : ℕ → ℝ) (n : ℕ) (h : ∀ k < n, f k = 0) :
    ((List.range n).map f).sum = 0 := by
  induction n with
  | zero => simp
  | succ m ih =>
    rw [List.range_succ, List.map_append, List.sum_append]
    rw [ih fun k hk => h k (by omega)]
    simp [h m (by omega)]

theorem sum_map_range_single (f : ℕ → ℝ) (n j : ℕ) (hj : j < n)
    (h : ∀ k < n, k ≠ j → f k = 0) : ((List.range n).map f).sum = f j := by
  induction n with
  | zero => omega
  | succ m ih =>
    rw [List.range_succ, List.map_append, List.sum_append]
    by_cases hjm : j = m
    · subst hjm
      rw [sum_map_range_zero f j fun k hk => h k (by omega) (by omega)]
      simp
    · rw [ih (by omega) fun k hk hkj => h k (by omega) hkj]
      simp [h m (by omega) (Ne.symm hjm)]

theorem map_getD_range {α : Type} (ps : List α) (d : α) :
    (List.range ps.length).map (fun i => ps.getD i d) = ps := by
  induction ps with
  | nil => simp
  | cons a l ih =>
    rw [List.length_cons, List.range_succ_eq_map, List.map_cons, List.map_map]
    have hf : ((fun i => (a :: l).getD i d) ∘ Nat.succ) = fun i => l.getD i d := by
      funext i
      simp [List.getD_cons_succ]
    rw [hf, ih]
    simp [List.getD_cons_zero]

theorem findDead_eq_none {l : List Particle14} (h : ∀ p ∈ l, ¬ p.energy < 0.01) :
    findDead l = none := by
  induction l with
  | nil => rfl
  | cons a t ih =>
    rw [findDead, if_neg (h a (by simp))]
    rw [ih fun p hp => h p (by simp [hp])]
    rfl

theorem densityAt_singleton (cfg : FieldCfg) (s : Slot) (x : ℝ × ℝ) :
    densityAt cfg [s] x = densityTerm cfg 1 x s := by
  unfold densityAt
  rw [show ([s] : List Slot).length = 1 from rfl, sampledIdx_of_le (by norm_num),
    strideOf_eq_one (by norm_num), show List.range 1 = [0] from rfl]
  simp

theorem separationAt_singleton (cfg : FieldCfg) (s : Slot) (x : ℝ × ℝ) :
    separationAt cfg [s] x = sepTerm cfg 1 x s := by
  unfold separationAt
  rw [show ([s] : List Slot).length = 1 from rfl, sampledIdx_of_le (by norm_num),
    strideOf_eq_one (by norm_num), show List.range 1 = [0] from rfl]
  simp

theorem sepTerm_eq_specTerm (cfg : FieldCfg) (x : ℝ × ℝ) (s : Slot) :
    sepTerm cfg 1 x s =
      if s.energy < 0.01 then 0
      else 1 / 2 *
        (max (1 - Real.sqrt (wrappedDist2 cfg.worldW cfg.worldH x (s.px, s.py))) 0) ^ 2 := by
  unfold sepTerm
  by_cases hdead : s.energy < 0.01
  · rw [if_pos hdead, if_pos hdead]
  · rw [if_neg hdead, if_neg hdead]
    have hd2 : 0 ≤ wrappedDist2 cfg.worldW cfg.worldH x (s.px, s.py) :=
      wrappedDist2_nonneg _ _ _ _
    by_cases hlt : wrappedDist2 cfg.worldW cfg.worldH x (s.px, s.py) < 1
    · rw [if_pos hlt]
      have hs : Real.sqrt (wrappedDist2 cfg.worldW cfg.worldH x (s.px, s.py)) < 1 := by
        have := Real.sqrt_lt_sqrt hd2 hlt
        rwa [Real.sqrt_one] at this
      rw [max_eq_left (by linarith)]
      push_cast
      ring_nf
    · rw [if_neg hlt]
      have hs : 1 ≤ Real.sqrt (wrappedDist2 cfg.worldW cfg.worldH x (s.px, s.py)) := by
        have := Real.sqrt_le_sqrt (le_of_not_lt hlt)
        rwa [Real.sqrt_one] at this
      rw [max_eq_right (by linarith)]
      ring

theorem sum_map_sepTerm (cfg : FieldCfg) (x : ℝ × ℝ) (ps : List Slot) :
    (ps.map (sepTerm cfg 1 x)).sum = specRepulsion 1 cfg x ps := by
  induction ps with
  | nil => simp [specRepulsion]
  | cons s t ih =>
    rw [List.map_cons, List.sum_cons, specRepulsion, ih, sepTerm_eq_specTerm]

theorem separationAt_eq_specRepulsion (cfg : FieldCfg) (ps : List Slot) (x : ℝ × ℝ)
    (h100 : ps.length ≤ 100) :
    separationAt cfg ps x = specRepulsion 1 cfg x ps := by
  unfold separationAt
  rw [sampledIdx_of_le h100, strideOf_eq_one h100]
  have h1 : (List.range ps.length).map (fun i => sepTerm cfg 1 x (ps.getD i deadSlot)) =
      ps.map (sepTerm cfg 1 x) := by
    conv_rhs => rw [← map_getD_range ps deadSlot]
    rw [List.map_map]
    rfl
  rw [h1, sum_map_sepTerm]

theorem clamp01_nonneg (e : ℝ) : 0 ≤ clamp01 e := by
  unfold clamp01
  exact le_min zero_le_one (le_max_left 0 e)

theorem clamp01_le_one (e : ℝ) : clamp01 e ≤ 1 := min_le_left 1 _

theorem statsFold_eq (l : List Particle14) :
    statsFold l =
      (countAlive l, ((aliveSlots l).map Particle14.energy).sum,
        ((aliveSlots l).map Particle14.age).sum) := by
  suffices h : ∀ c : ℕ × ℝ × ℝ,
      l.foldl
        (fun acc p =>
          if (0.01 : ℝ) < p.energy then (acc.1 + 1, acc.2.1 + p.energy, acc.2.2 + p.age)
          else acc) c =
        (c.1 + countAlive l, c.2.1 + ((aliveSlots l).map Particle14.energy).sum,
          c.2.2 + ((aliveSlots l).map Particle14.age).sum) by
    have h0 := h (0, 0, 0)
    simpa [statsFold] using h0
  induction l with
  | nil => intro c; simp [countAlive, aliveSlots]
  | cons a t ih =>
    intro c
    rw [List.foldl_cons]
    by_cases ha : (0.01 : ℝ) < a.energy
    · rw [if_pos ha, ih]
      simp only [countAlive, aliveSlots, List.filter_cons, decide_eq_true_eq, ha, if_pos,
        List.length_cons, List.map_cons, List.sum_cons]
      refine Prod.ext ?_ (Prod.ext ?_ ?_) <;> simp <;> ring
    · rw [if_neg ha, ih]
      simp only [countAlive, aliveSlots, List.filter_cons]
      rw [if_neg (by simpa using ha)]

theorem stobV_boolVal (b : Bool) : stobV (boolVal b) = b := by
  cases b <;> rfl

theorem floor_logb_eq {x : ℝ} {k : ℤ} (hx : 0 < x)
    (h1 : (10 : ℝ) ^ k ≤ x) (h2 : x < (10 : ℝ) ^ (k + 1)) :
    ⌊Real.logb 10 x⌋ = k := by
  have hk : Real.logb 10 ((10 : ℝ) ^ k) = (k : ℝ) := by
    rw [← Real.rpow_intCast 10 k, Real.logb_rpow (by norm_num) (by norm_num)]
  have hk1 : Real.logb 10 ((10 : ℝ) ^ (k + 1)) = ((k + 1 : ℤ) : ℝ) := by
    rw [← Real.rpow_intCast 10 (k + 1), Real.logb_rpow (by norm_num) (by norm_num)]
  rw [Int.floor_eq_iff]
  constructor
  · rw [← hk]
    exact Real.logb_le_logb_of_le (by norm_num) (by positivity) h1
  · have hlt := Real.logb_lt_logb (b := 10) (by norm_num) hx h2
    rw [hk1] at hlt
    push_cast at hlt ⊢
    linarith

theorem sig6_eval {x : ℝ} {k m : ℤ} (hx : 0 < x)
    (h1 : (10 : ℝ) ^ k ≤ x) (h2 : x < (10 : ℝ) ^ (k + 1))
    (hm : round (x / (10 : ℝ) ^ (k - 5)) = m) :
    sig6 x = (m : ℝ) * (10 : ℝ) ^ (k - 5) := by
  have hfl : ⌊Real.logb 10 |x|⌋ = k := by
    rw [abs_of_pos hx]
    exact floor_logb_eq hx h1 h2
  rw [sig6, if_neg (ne_of_gt hx), hfl, hm]

theorem sig6_eq_self {x : ℝ} {k n : ℤ} (hx : 0 < x)
    (h1 : (10 : ℝ) ^ k ≤ x) (h2 : x < (10 : ℝ) ^ (k + 1))
    (hn : x = (n : ℝ) * (10 : ℝ) ^ (k - 5)) :
    sig6 x = x := by
  have hdiv : x / (10 : ℝ) ^ (k - 5) = (n : ℝ) := by
    rw [hn]
    field_simp
  have hm : round (x / (10 : ℝ) ^ (k - 5)) = n := by
    rw [hdiv, round_intCast]
  rw [sig6_eval hx h1 h2 hm]
  exact hn.symm

theorem sig6_zero : sig6 0 = 0 := if_pos rfl

theorem loadLine_key_worldWidth (p : Params) (v : SceneVal) :
    loadLine p ("worldWidth", v) = { p with worldWidth := stofV v } := rfl

theorem loadLine_key_worldHeight (p : Params) (v : SceneVal) :
    loadLine p ("worldHeight", v) = { p with worldHeight := stofV v } := rfl

theorem loadLine_key_worldDepth (p : Params) (v : SceneVal) :
    loadLine p ("worldDepth", v) = { p with worldDepth := stofV v } := rfl

theorem loadLine_key_numParticles (p : Params) (v : SceneVal) :
    loadLine p ("numParticles", v) = { p with numParticles := stoiV v } := rfl

theorem loadLine_key_maxParticles (p : Params) (v : SceneVal) :
    loadLine p ("maxParticles", v) = { p with maxParticles := stoiV v } := rfl

theorem loadLine_key_w_k (p : Params) (v : SceneVal) :
    loadLine p ("w_k", v) = { p with w_k := stofV v } := rfl

theorem loadLine_key_mu_k (p : Params) (v : SceneVal) :
    loadLine p ("mu_k", v) = { p with mu_k := stofV v } := rfl

theorem loadLine_key_sigma_k2 (p : Params) (v : SceneVal) :
    loadLine p ("sigma_k2", v) = { p with sigma_k2 := stofV v } := rfl

theorem loadLine_key_mu_g (p : Params) (v : SceneVal) :
    loadLine p ("mu_g", v) = { p with mu_g := stofV v } := rfl

theorem loadLine_key_sigma_g2 (p : Params) (v : SceneVal) :
    loadLine p ("sigma_g2", v) = { p with sigma_g2 := stofV v } := rfl

theorem loadLine_key_c_rep (p : Params) (v : SceneVal) :
    loadLine p ("c_rep", v) = { p with c_rep := stofV v } := rfl

theorem loadLine_key_dt (p : Params) (v : SceneVal) :
    loadLine p ("dt", v) = { p with dt := stofV v } := rfl

theorem loadLine_key_h (p : Params) (v : SceneVal) :
    loadLine p ("h", v) = { p with h := stofV v } := rfl

theorem loadLine_key_evolutionEnabled (p : Params) (v : SceneVal) :
    loadLine p ("evolutionEnabled", v) = { p with evolutionEnabled := stobV v } := rfl

theorem loadLine_key_birthRate (p : Params) (v : SceneVal) :
    loadLine p ("birthRate", v) = { p with birthRate := stofV v } := rfl

theorem loadLine_key_deathRate (p : Params) (v : SceneVal) :
    loadLine p ("deathRate", v) = { p with deathRate := stofV v } := rfl

theorem loadLine_key_mutationRate (p : Params) (v : SceneVal) :
    loadLine p ("mutationRate", v) = { p with mutationRate := stofV v } := rfl

theorem loadLine_key_energyDecay (p : Params) (v : SceneVal) :
    loadLine p ("energyDecay", v) = { p with energyDecay := stofV v } := rfl

theorem loadLine_key_energyFromGrowth (p : Params) (v : SceneVal) :
    loadLine p ("energyFromGrowth", v) = { p with energyFromGrowth := stofV v } := rfl

theorem loadLine_key_translateX (p : Params) (v : SceneVal) :
    loadLine p ("translateX", v) = { p with translateX := stofV v } := rfl

theorem loadLine_key_translateY (p : Params) (v : SceneVal) :
    loadLine p ("translateY", v) = { p with translateY := stofV v } := rfl

theorem loadLine_key_translateZ (p : Params) (v : SceneVal) :
    loadLine p ("translateZ", v) = { p with translateZ := stofV v } := rfl

theorem loadLine_key_zoom (p : Params) (v : SceneVal) :
    loadLine p ("zoom", v) = { p with zoom := stofV v } := rfl

theorem loadLine_key_stepsPerFrame (p : Params) (v : SceneVal) :
    loadLine p ("stepsPerFrame", v) = { p with stepsPerFrame := stoiV v } := rfl

theorem loadLine_key_showFields (p : Params) (v : SceneVal) :
    loadLine p ("showFields", v) = { p with showFields := stobV v } := rfl

theorem loadLine_key_fieldType (p : Params) (v : SceneVal) :
    loadLine p ("fieldType", v) = { p with fieldType := stoiV v } := rfl

theorem loadLine_key_foodEnabled (p : Params) (v : SceneVal) :
    loadLine p ("foodEnabled", v) = { p with foodEnabled := stobV v } := rfl

theorem loadLine_key_foodSpawnRate (p : Params) (v : SceneVal) :
    loadLine p ("foodSpawnRate", v) = { p with foodSpawnRate := stofV v } := rfl

theorem loadLine_key_foodDecayRate (p : Params) (v : SceneVal) :
    loadLine p ("foodDecayRate", v) = { p with foodDecayRate := stofV v } := rfl

theorem loadLine_key_foodMaxAmount (p : Params) (v : SceneVal) :
    loadLine p ("foodMaxAmount", v) = { p with foodMaxAmount := stofV v } := rfl

theorem loadLine_key_foodConsumptionRadius (p : Params) (v : SceneVal) :
    loadLine p ("foodConsumptionRadius", v) = { p with foodConsumptionRadius := stofV v } := rfl

theorem loadLine_key_showFood (p : Params) (v : SceneVal) :
    loadLine p ("showFood", v) = { p with showFood := stobV v } := rfl

theorem loadLine_key_view3D (p : Params) (v : SceneVal) :
    loadLine p ("view3D", v) = { p with view3D := stobV v } := rfl

theorem loadLine_key_cameraAngle (p : Params) (v : SceneVal) :
    loadLine p ("cameraAngle", v) = { p with cameraAngle := stofV v } := rfl

theorem loadLine_key_cameraRotation (p : Params) (v : SceneVal) :
    loadLine p ("cameraRotation", v) = { p with cameraRotation := stofV v } := rfl

theorem loadLine_key_cameraDistance (p : Params) (v : SceneVal) :
    loadLine p ("cameraDistance", v) = { p with cameraDistance := stofV v } := rfl

theorem loadLine_key_heightScale (p : Params) (v : SceneVal) :
    loadLine p ("heightScale", v) = { p with heightScale := stofV v } := rfl

theorem loadLine_key_glowIntensity (p : Params) (v : SceneVal) :
    loadLine p ("glowIntensity", v) = { p with glowIntensity := stofV v } := rfl

theorem loadLine_key_showWireframe (p : Params) (v : SceneVal) :
    loadLine p ("showWireframe", v) = { p with showWireframe := stobV v } := rfl

theorem loadLine_key_ambientLight (p : Params) (v : SceneVal) :
    loadLine p ("ambientLight", v) = { p with ambientLight := stofV v } := rfl

theorem loadLine_key_particleSize (p : Params) (v : SceneVal) :
    loadLine p ("particleSize", v) = { p with particleSize := stofV v } := rfl

theorem loadLine_key_interactionMode (p : Params) (v : SceneVal) :
    loadLine p ("interactionMode", v) = { p with interactionMode := stoiV v } := rfl

theorem loadLine_key_brushRadius (p : Params) (v : SceneVal) :
    loadLine p ("brushRadius", v) = { p with brushRadius := stofV v } := rfl

theorem loadLine_key_forceStrength (p : Params) (v : SceneVal) :
    loadLine p ("forceStrength", v) = { p with forceStrength := stofV v } := rfl

theorem loadLine_key_goalMode (p : Params) (v : SceneVal) :
    loadLine p ("goalMode", v) = { p with goalMode := stoiV v } := rfl

theorem loadLine_key_goalStrength (p : Params) (v : SceneVal) :
    loadLine p ("goalStrength", v) = { p with goalStrength := stofV v } := rfl

theorem loadLine_key_showGoal (p : Params) (v : SceneVal) :
    loadLine p ("showGoal", v) = { p with showGoal := stobV v } := rfl

theorem loadLine_key_goalImagePath (p : Params) (v : SceneVal) :
    loadLine p ("goalImagePath", v) =
      if (strV v).length < 256 then { p with goalImagePath := strV v } else p := rfl

theorem loadParams_saveScene (p q : Params) (hlen : p.goalImagePath.length < 256) :
    loadParams (saveScene p) q = sig6Params p := by
  obtain ⟨w1, w2, w3, n1, n2, k1, k2, k3, g1, g2, cr, dtv, hv, eE, bR, dR, mR, eD, eG,
    tX, tY, tZ, zm, spf, shF, fT, fE, fSp, fDc, fM, fC, shFd, v3, cA, cRo, cDi, hS, gI,
    sW, aL, pSz, iM, bRa, fSt, gM, gS, sG, gP⟩ := p
  simp only [saveScene, loadParams, List.foldl_cons, List.foldl_nil]
  rw [loadLine_key_worldWidth,
    loadLine_key_worldHeight,
    loadLine_key_worldDepth,
    loadLine_key_numParticles,
    loadLine_key_maxParticles,
    loadLine_key_w_k,
    loadLine_key_mu_k,
    loadLine_key_sigma_k2,
    loadLine_key_mu_g,
    loadLine_key_sigma_g2,
    loadLine_key_c_rep,
    loadLine_key_dt,
    loadLine_key_h,
    loadLine_key_evolutionEnabled,
    loadLine_key_birthRate,
    loadLine_key_deathRate,
    loadLine_key_mutationRate,
    loadLine_key_energyDecay,
    loadLine_key_energyFromGrowth,
    loadLine_key_translateX,
    loadLine_key_translateY,
    loadLine_key_translateZ,
    loadLine_key_zoom,
    loadLine_key_stepsPerFrame,
    loadLine_key_showFields,
    loadLine_key_fieldType,
    loadLine_key_foodEnabled,
    loadLine_key_foodSpawnRate,
    loadLine_key_foodDecayRate,
    loadLine_key_foodMaxAmount,
    loadLine_key_foodConsumptionRadius,
    loadLine_key_showFood,
    loadLine_key_view3D,
    loadLine_key_cameraAngle,
    loadLine_key_cameraRotation,
    loadLine_key_cameraDistance,
    loadLine_key_heightScale,
    loadLine_key_glowIntensity,
    loadLine_key_showWireframe,
    loadLine_key_ambientLight,
    loadLine_key_particleSize,
    loadLine_key_interactionMode,
    loadLine_key_brushRadius,
    loadLine_key_forceStrength,
    loadLine_key_goalMode,
    loadLine_key_goalStrength,
    loadLine_key_showGoal,
    loadLine_key_goalImagePath]
  simp only [stofV, stoiV, strV, stobV_boolVal]
  rw [if_pos hlen]
  simp only [sig6Params]

/-! ## Claims -/

/-- C4.  For every pair of points p1, p2 in the toroidal world with positive
world extents, the minimum-image wrapped distance is symmetric
(`wrappedDist2 p1 p2 = wrappedDist2 p2 p1`) and the wrapped displacement along
each axis has magnitude at most half the world extent on that axis. -/
theorem wrappedDist2_symm_and_bounded (W H : ℝ) (p q : ℝ × ℝ)
    (hW : 0 < W) (hH : 0 < H)
    (hp1 : |p.1| ≤ W / 2) (hq1 : |q.1| ≤ W / 2)
    (hp2 : |p.2| ≤ H / 2) (hq2 : |q.2| ≤ H / 2) :
    wrappedDist2 W H p q = wrappedDist2 W H q p ∧
      |wrapCoord W (q.1 - p.1)| ≤ W / 2 ∧ |wrapCoord H (q.2 - p.2)| ≤ H / 2 := by
  refine ⟨?_, ?_, ?_⟩
  · unfold wrappedDist2
    rw [show p.1 - q.1 = -(q.1 - p.1) by ring, show p.2 - q.2 = -(q.2 - p.2) by ring,
      wrapCoord_neg W _ hW.le, wrapCoord_neg H _ hH.le]
    ring
  · refine wrapCoord_abs_le W _ hW ?_
    rw [abs_le] at hp1 hq1 ⊢
    constructor <;> linarith
  · refine wrapCoord_abs_le H _ hH ?_
    rw [abs_le] at hp2 hq2 ⊢
    constructor <;> linarith

/-- Concrete instance of C4's theorem at world 40 × 40 with points (1, 2) and
(15, -4). -/
theorem wrappedDist2_symm_and_bounded_witness :
    wrappedDist2 40 40 (1, 2) (15, -4) = wrappedDist2 40 40 (15, -4) (1, 2) ∧
      |wrapCoord 40 ((15 : ℝ) - 1)| ≤ 40 / 2 ∧ |wrapCoord 40 ((-4 : ℝ) - 2)| ≤ 40 / 2 :=
  wrappedDist2_symm_and_bounded 40 40 (1, 2) (15, -4) (by norm_num) (by norm_num)
    (by norm_num [abs_le]) (by norm_num [abs_le])
    (by norm_num [abs_le]) (by norm_num [abs_le])

/-- C2 (amended).  For a query position over a particle buffer of at most 100
slots (so the display loop's subsampling stride `max(1, n/100)` is 1) with
exactly one living slot, at wrapped distance d within the kernel cutoff
`mu_k + 3*sqrt(sigma_k2)` and carrying energy e, the computed density is
`U = w_k * exp(-(d - mu_k)^2 / sigma_k2) * e`, the closed-form Gaussian-shell
kernel scaled by the neighbor's energy; with zero living neighbors, U = 0. -/
theorem densityAt_single_neighbor (cfg : FieldCfg) (ps : List Slot) (x : ℝ × ℝ)
    (h100 : ps.length ≤ 100) :
    (∀ j, j < ps.length →
      ¬ (ps.getD j deadSlot).energy < 0.01 →
      (∀ k, k < ps.length → k ≠ j → (ps.getD k deadSlot).energy < 0.01) →
      wrappedDist2 cfg.worldW cfg.worldH x ((ps.getD j deadSlot).px, (ps.getD j deadSlot).py) <
          cutoff2 cfg →
      densityAt cfg ps x =
        kernelK cfg
            (Real.sqrt (wrappedDist2 cfg.worldW cfg.worldH x
              ((ps.getD j deadSlot).px, (ps.getD j deadSlot).py))) *
          (ps.getD j deadSlot).energy) ∧
    ((∀ k, k < ps.length → (ps.getD k deadSlot).energy < 0.01) →
      densityAt cfg ps x = 0) := by
  unfold densityAt
  rw [sampledIdx_of_le h100, strideOf_eq_one h100]
  constructor
  · intro j hj halive hdead hcut
    rw [sum_map_range_single (fun i => densityTerm cfg 1 x (ps.getD i deadSlot)) ps.length j hj
      (fun k hk hkj => by simp only [densityTerm]; rw [if_pos (hdead k hk hkj)])]
    simp only [densityTerm]
    rw [if_neg halive, if_pos hcut]
    push_cast
    ring
  · intro hdead
    exact sum_map_range_zero _ _
      (fun k hk => by simp only [densityTerm]; rw [if_pos (hdead k hk)])

/-- Concrete instance of C2's theorem: a single living neighbor of energy 1/2
at distance 3 from the query point, inside the cutoff radius 4. -/
theorem densityAt_single_neighbor_witness :
    densityAt ⟨40, 40, 1, 1, 1, 0, 1⟩ [⟨3, 0, 1 / 2⟩] (0, 0) =
      kernelK ⟨40, 40, 1, 1, 1, 0, 1⟩
          (Real.sqrt (wrappedDist2 (40 : ℝ) 40 (0, 0) (3, 0))) * (1 / 2) :=
  (densityAt_single_neighbor ⟨40, 40, 1, 1, 1, 0, 1⟩ [⟨3, 0, 1 / 2⟩] (0, 0) (by simp)).1
    0 (by simp) (by norm_num)
    (fun k hk hkj => absurd (Nat.lt_one_iff.mp (by simpa using hk)) hkj)
    (by
      have h9 : wrappedDist2 (40 : ℝ) 40 (0, 0) (3, 0) = 9 := by
        simp only [wrappedDist2, wrapCoord]
        norm_num
      have hcut : cutoff2 ⟨40, 40, 1, 1, 1, 0, 1⟩ = 16 := by
        simp only [cutoff2, Real.sqrt_one]
        norm_num
      rw [show ((([⟨3, 0, 1 / 2⟩] : List Slot).getD 0 deadSlot).px,
          (([⟨3, 0, 1 / 2⟩] : List Slot).getD 0 deadSlot).py) = ((3 : ℝ), (0 : ℝ)) from rfl,
        h9, hcut]
      norm_num)

/-- C2 (counterexample).  As frozen, C2 asserts `U = K(d) · e` for a single
living neighbor at *any* distance d; the display loop, however, prunes
contributions whose squared distance is at least
`cutoff2 = (mu_k + 3*sqrt(sigma_k2))^2` (part_024 lines 107-123).  With
`w_k = 1, mu_k = 1, sigma_k2 = 1` and the only living neighbor at distance 10
(beyond the cutoff 4), the computed density is 0 while the closed form
`K(10) · 1 = exp(-81)` is positive. -/
theorem densityAt_beyond_cutoff_counterexample :
    densityAt ⟨40, 40, 1, 1, 1, 0, 1⟩ [⟨10, 0, 1⟩] (0, 0) ≠
      kernelK ⟨40, 40, 1, 1, 1, 0, 1⟩
          (Real.sqrt (wrappedDist2 (40 : ℝ) 40 (0, 0) (10, 0))) * 1 := by
  have h100 : wrappedDist2 (40 : ℝ) 40 (0, 0) (10, 0) = 100 := by
    simp only [wrappedDist2, wrapCoord]
    norm_num
  have hcut : cutoff2 ⟨40, 40, 1, 1, 1, 0, 1⟩ = 16 := by
    simp only [cutoff2, Real.sqrt_one]
    norm_num
  have hLHS : densityAt ⟨40, 40, 1, 1, 1, 0, 1⟩ [⟨10, 0, 1⟩] (0, 0) = 0 := by
    rw [densityAt_singleton]
    simp only [densityTerm]
    rw [if_neg (by norm_num),
      show ((⟨10, 0, 1⟩ : Slot).px, (⟨10, 0, 1⟩ : Slot).py) = ((10 : ℝ), (0 : ℝ)) from rfl,
      h100, hcut, if_neg (by norm_num)]
  rw [hLHS]
  simp only [kernelK, mul_one, one_mul]
  exact (Real.exp_pos _).ne

/-- C3 (amended).  For every query position over a particle buffer of at most
100 slots (stride 1), the computed energy landscape equals
`E(x) = R(x) − G(U(x))` where `G(U) = exp(−(U − mu_g)² / sigma_g²)` and `R(x)`
sums `(c_rep/2) · max(1 − r, 0)²` over living neighbors with the repulsion
coefficient fixed at `c_rep = 1` (the display shader hard-codes `0.5`, it does
not read the configured `c_rep`). -/
theorem energyFieldAt_eq_repulsion_minus_growth (cfg : FieldCfg) (ps : List Slot) (x : ℝ × ℝ)
    (h100 : ps.length ≤ 100) :
    energyFieldAt cfg ps x =
      specRepulsion 1 cfg x ps - growthG cfg (densityAt cfg ps x) := by
  unfold energyFieldAt
  rw [separationAt_eq_specRepulsion cfg ps x h100]

/-- Concrete instance of C3's theorem: one living particle at distance 1/2
from the query point, default kernel/growth parameters. -/
theorem energyFieldAt_eq_repulsion_minus_growth_witness :
    energyFieldAt ⟨40, 40, 0.022, 4, 1, 0.6, 0.0225⟩ [⟨1 / 2, 0, 1⟩] (0, 0) =
      specRepulsion 1 ⟨40, 40, 0.022, 4, 1, 0.6, 0.0225⟩ (0, 0) [⟨1 / 2, 0, 1⟩] -
        growthG ⟨40, 40, 0.022, 4, 1, 0.6, 0.0225⟩
          (densityAt ⟨40, 40, 0.022, 4, 1, 0.6, 0.0225⟩ [⟨1 / 2, 0, 1⟩] (0, 0)) :=
  energyFieldAt_eq_repulsion_minus_growth ⟨40, 40, 0.022, 4, 1, 0.6, 0.0225⟩
    [⟨1 / 2, 0, 1⟩] (0, 0) (by simp)

/-- C3 (counterexample).  As frozen, C3 asserts the repulsion term is scaled
by the configured `c_rep`; the display shader instead hard-codes the
coefficient `0.5` (part_024 line 127) and receives no `u_Crep` uniform.  With
`c_rep = 2` configured, `w_k = 0`, `mu_k = 10`, `sigma_k2 = 1`, `mu_g = 0`,
`sigma_g2 = 1` and one living neighbor at distance 1/2, the computed landscape
is `0.125 − 1` while the claimed `R − G(U)` is `0.25 − 1`. -/
theorem energyFieldAt_crep_counterexample :
    energyFieldAt ⟨40, 40, 0, 10, 1, 0, 1⟩ [⟨1 / 2, 0, 1⟩] (0, 0) ≠
      specRepulsion 2 ⟨40, 40, 0, 10, 1, 0, 1⟩ (0, 0) [⟨1 / 2, 0, 1⟩] -
        growthG ⟨40, 40, 0, 10, 1, 0, 1⟩
          (densityAt ⟨40, 40, 0, 10, 1, 0, 1⟩ [⟨1 / 2, 0, 1⟩] (0, 0)) := by
  have hd2 : wrappedDist2 (40 : ℝ) 40 (0, 0) (1 / 2, 0) = 1 / 4 := by
    simp only [wrappedDist2, wrapCoord]
    norm_num
  have hsqrt : Real.sqrt (1 / 4) = 1 / 2 := by
    rw [show (1 / 4 : ℝ) = (1 / 2) ^ 2 by norm_num, Real.sqrt_sq (by norm_num)]
  have hU : densityAt ⟨40, 40, 0, 10, 1, 0, 1⟩ [⟨1 / 2, 0, 1⟩] (0, 0) = 0 := by
    rw [densityAt_singleton]
    simp only [densityTerm, kernelK]
    rw [if_neg (by norm_num)]
    split_ifs <;> norm_num
  have hG : growthG ⟨40, 40, 0, 10, 1, 0, 1⟩ 0 = 1 := by
    simp only [growthG]
    norm_num
  have hSep : separationAt ⟨40, 40, 0, 10, 1, 0, 1⟩ [⟨1 / 2, 0, 1⟩] (0, 0) = 1 / 8 := by
    rw [separationAt_singleton]
    simp only [sepTerm]
    rw [if_neg (by norm_num),
      show ((⟨1 / 2, 0, 1⟩ : Slot).px, (⟨1 / 2, 0, 1⟩ : Slot).py) = ((1 / 2 : ℝ), (0 : ℝ))
        from rfl, hd2, if_pos (by norm_num), hsqrt]
    push_cast
    norm_num
  have hR : specRepulsion 2 ⟨40, 40, 0, 10, 1, 0, 1⟩ (0, 0) [⟨1 / 2, 0, 1⟩] = 1 / 4 := by
    simp only [specRepulsion]
    rw [if_neg (by norm_num),
      show ((⟨1 / 2, 0, 1⟩ : Slot).px, (⟨1 / 2, 0, 1⟩ : Slot).py) = ((1 / 2 : ℝ), (0 : ℝ))
        from rfl, hd2, hsqrt]
    rw [max_eq_left (by norm_num)]
    norm_num
  rw [energyFieldAt, hU, hG, hSep, hR]
  norm_num

/-- C1.  For every tick and every particle, after the simulation step
completes the particle's energy lies in [0,1]: every adjustment to energy
(metabolic decay, growth gain, predation transfer, food consumption, birth
initialization) is followed by a clamp to [0,1].  (The energy pipeline is
modelled from the spec, the step compute shader being absent from the
snapshot.) -/
theorem stepEnergy_mem_unit (alive born : Bool)
    (e decay growthGain predDelta foodGain birthEnergy : ℝ) :
    0 ≤ stepEnergy alive born e decay growthGain predDelta foodGain birthEnergy ∧
      stepEnergy alive born e decay growthGain predDelta foodGain birthEnergy ≤ 1 := by
  unfold stepEnergy
  split_ifs <;>
    first
      | exact ⟨clamp01_nonneg _, clamp01_le_one _⟩
      | exact ⟨le_refl 0, zero_le_one⟩

/-- C5.  For every configured time step, the integrator uses an effective dt
clamped to a fixed stability ceiling of 0.033, regardless of the step size the
caller requests; a requested dt above the ceiling does not reach the
velocity/position update.  (The clamp is modelled from the spec, the step
compute shader being absent; the ceiling matches ParticleLife3D.cpp line 41.) -/
theorem integrate_dt_clamped (v p gradE dtReq : ℝ) :
    effectiveDt dtReq ≤ 0.033 ∧
      integrate v p gradE dtReq = integrate v p gradE (effectiveDt dtReq) ∧
      (¬ dtReq ≤ 0.033 → effectiveDt dtReq = 0.033) := by
  refine ⟨min_le_right _ _, ?_, fun hgt => ?_⟩
  · unfold integrate effectiveDt
    rw [min_assoc, min_self]
  · unfold effectiveDt
    rw [min_eq_right (le_of_not_le hgt)]

/-- Concrete instance of C5's theorem: a requested dt of 0.1 is replaced by
the 0.033 ceiling. -/
theorem integrate_dt_clamped_witness : effectiveDt 0.1 = 0.033 :=
  (integrate_dt_clamped 0 0 0 0.1).2.2 (by norm_num)

/-- C9.  On every tick, the particle update reads only from the buffer
produced by the previous tick and writes only to the other buffer of the
double-buffered pair (the two are always distinct), and the buffers'
read/write roles swap exactly once per tick, after the particle update
completes: after `step`, the flag is negated, the previously current buffer
is untouched, and the now-current buffer holds the shader's output computed
from the previously current buffer. -/
theorem stepBuffers_ping_pong (f : List Particle14 → List Particle14) (s : HostSim) :
    readsFrom s ≠ writesTo s ∧
      (stepBuffers f s).useA = !s.useA ∧
      inactiveBuf (stepBuffers f s) = activeBuf s ∧
      activeBuf (stepBuffers f s) = f (activeBuf s) := by
  cases h : s.useA <;>
    simp [readsFrom, writesTo, stepBuffers, activeBuf, inactiveBuf, h]

/-- C6.  When no dead slot (a slot whose energy is below the 0.01 dead
threshold) is available, a birth attempt via `addParticle` leaves both
particle buffers and the alive count unchanged (the attempt is silently
dropped, with no error surfaced), and the number of alive slots can never
exceed the buffer's capacity (`maxParticles` slots). -/
theorem addParticle_full_noop (s : HostSim) (x y z speciesDraw : ℝ) (dnaDraw : Fin 5 → ℝ)
    (hfull : ∀ p ∈ activeBuf s, ¬ p.energy < 0.01) :
    addParticle s x y z speciesDraw dnaDraw = s ∧
      ∀ l : List Particle14, countAlive l ≤ l.length := by
  constructor
  · unfold addParticle
    rw [findDead_eq_none hfull]
  · intro l
    exact List.length_filter_le _ l

/-- Concrete instance of C6's theorem: a one-slot buffer whose only particle
is alive (energy 1), so a birth attempt changes nothing. -/
theorem addParticle_full_noop_witness :
    addParticle
        ⟨[{ deadParticle with energy := 1 }], [{ deadParticle with energy := 1 }], true, 1⟩
        0 0 0 0 (fun _ => 0) =
      ⟨[{ deadParticle with energy := 1 }], [{ deadParticle with energy := 1 }], true, 1⟩ ∧
      ∀ l : List Particle14, countAlive l ≤ l.length :=
  addParticle_full_noop
    ⟨[{ deadParticle with energy := 1 }], [{ deadParticle with energy := 1 }], true, 1⟩
    0 0 0 0 (fun _ => 0)
    (by
      intro p hp
      simp only [activeBuf, if_pos, List.mem_singleton] at hp
      subst hp
      norm_num)

/-- C10.  The statistics reduction never divides by zero: for every particle
buffer state, if no slot has energy above the 0.01 alive threshold then
`updateStats` reports aliveCount = 0, avgEnergy = 0 and avgAge = 0; otherwise
avgEnergy and avgAge are the sums over alive slots divided by the alive
count. -/
theorem updateStats_safe (l : List Particle14) :
    (updateStats l).aliveCount = countAlive l ∧
      ((∀ p ∈ l, ¬ (0.01 : ℝ) < p.energy) → updateStats l = ⟨0, 0, 0⟩) ∧
      (countAlive l ≠ 0 →
        (updateStats l).avgEnergy =
            ((aliveSlots l).map Particle14.energy).sum / (countAlive l : ℝ) ∧
          (updateStats l).avgAge =
            ((aliveSlots l).map Particle14.age).sum / (countAlive l : ℝ)) := by
  have hfold := statsFold_eq l
  refine ⟨?_, fun hdead => ?_, fun hpos => ?_⟩
  · rw [updateStats, hfold]
  · have hnil : aliveSlots l = [] := by
      refine List.filter_eq_nil_iff.mpr fun p hp => ?_
      simpa using hdead p hp
    rw [updateStats, hfold]
    simp [countAlive, hnil]
  · rw [updateStats, hfold]
    constructor <;> simp [if_pos (Nat.pos_of_ne_zero hpos)]

/-- Concrete instance of C10's theorem: a buffer whose single slot is dead
(energy 0) reports zero statistics without dividing. -/
theorem updateStats_safe_witness : updateStats [deadParticle] = ⟨0, 0, 0⟩ :=
  (updateStats_safe [deadParticle]).2.1
    (by
      intro p hp
      simp only [List.mem_singleton] at hp
      subst hp
      norm_num [deadParticle])

/-- C8 (amended).  For every reachable parameter record (the `goalImagePath`
field fits its 256-byte buffer), saving the scene to the flat key=value text
encoding and then loading that file back restores the parameter record with
every float field replaced by its 6-significant-digit decimal rounding (the
default precision of the `std::ofstream` the code writes through); int, bool
and string fields are restored exactly, and a record whose float fields are
already at 6-significant-digit precision — the default record among them — is
restored identically.  Loading fully reinitializes the simulation state
consistent with the loaded parameters: `loadScene` ends in `init()`, so the
resulting state is exactly `initSim` of the restored record, with buffers of
`maxParticles * 14` floats and `aliveCount = numParticles`. -/
theorem saveScene_loadScene_roundtrip (p : Params) (s : SimState)
    (hlen : p.goalImagePath.length < 256) :
    (loadScene (saveScene p) s).params = sig6Params p ∧
      loadScene (saveScene p) s = initSim (sig6Params p) ∧
      (sig6Params p = p → loadScene (saveScene p) s = initSim p) ∧
      (loadScene (saveScene p) s).bufferSize = p.maxParticles * 14 ∧
      (loadScene (saveScene p) s).aliveCount = p.numParticles := by
  have h := loadParams_saveScene p s.params hlen
  unfold loadScene
  rw [h]
  exact ⟨rfl, rfl, fun hfix => by rw [hfix], rfl, rfl⟩

/-- Every float field of the default-constructed parameter record is already
at 6-significant-digit precision, so the record is a fixed point of the save
formatting. -/
theorem sig6Params_defaultParams : sig6Params defaultParams = defaultParams := by
  have e40 : sig6 (40 : ℝ) = 40 :=
    sig6_eq_self (k := 1) (n := 400000) (by norm_num) (by norm_num) (by norm_num) (by norm_num)
  have e0022 : sig6 (0.022 : ℝ) = 0.022 :=
    sig6_eq_self (k := -2) (n := 220000) (by norm_num) (by norm_num) (by norm_num) (by norm_num)
  have e4 : sig6 (4 : ℝ) = 4 :=
    sig6_eq_self (k := 0) (n := 400000) (by norm_num) (by norm_num) (by norm_num) (by norm_num)
  have e1 : sig6 (1 : ℝ) = 1 :=
    sig6_eq_self (k := 0) (n := 100000) (by norm_num) (by norm_num) (by norm_num) (by norm_num)
  have e06 : sig6 (0.6 : ℝ) = 0.6 :=
    sig6_eq_self (k := -1) (n := 600000) (by norm_num) (by norm_num) (by norm_num) (by norm_num)
  have e00225 : sig6 (0.0225 : ℝ) = 0.0225 :=
    sig6_eq_self (k := -2) (n := 225000) (by norm_num) (by norm_num) (by norm_num) (by norm_num)
  have e01 : sig6 (0.1 : ℝ) = 0.1 :=
    sig6_eq_self (k := -1) (n := 100000) (by norm_num) (by norm_num) (by norm_num) (by norm_num)
  have e001 : sig6 (0.01 : ℝ) = 0.01 :=
    sig6_eq_self (k := -2) (n := 100000) (by norm_num) (by norm_num) (by norm_num) (by norm_num)
  have e0001 : sig6 (0.001 : ℝ) = 0.001 :=
    sig6_eq_self (k := -3) (n := 100000) (by norm_num) (by norm_num) (by norm_num) (by norm_num)
  have e0002 : sig6 (0.002 : ℝ) = 0.002 :=
    sig6_eq_self (k := -3) (n := 200000) (by norm_num) (by norm_num) (by norm_num) (by norm_num)
  have e2 : sig6 (2 : ℝ) = 2 :=
    sig6_eq_self (k := 0) (n := 200000) (by norm_num) (by norm_num) (by norm_num) (by norm_num)
  have e45 : sig6 (45 : ℝ) = 45 :=
    sig6_eq_self (k := 1) (n := 450000) (by norm_num) (by norm_num) (by norm_num) (by norm_num)
  have e60 : sig6 (60 : ℝ) = 60 :=
    sig6_eq_self (k := 1) (n := 600000) (by norm_num) (by norm_num) (by norm_num) (by norm_num)
  have e10 : sig6 (10 : ℝ) = 10 :=
    sig6_eq_self (k := 1) (n := 100000) (by norm_num) (by norm_num) (by norm_num) (by norm_num)
  have e15 : sig6 (1.5 : ℝ) = 1.5 :=
    sig6_eq_self (k := 0) (n := 150000) (by norm_num) (by norm_num) (by norm_num) (by norm_num)
  have e05 : sig6 (0.5 : ℝ) = 0.5 :=
    sig6_eq_self (k := -1) (n := 500000) (by norm_num) (by norm_num) (by norm_num) (by norm_num)
  have e20 : sig6 (20 : ℝ) = 20 :=
    sig6_eq_self (k := 1) (n := 200000) (by norm_num) (by norm_num) (by norm_num) (by norm_num)
  have e5 : sig6 (5 : ℝ) = 5 :=
    sig6_eq_self (k := 0) (n := 500000) (by norm_num) (by norm_num) (by norm_num) (by norm_num)
  simp only [sig6Params, defaultParams, sig6_zero, e40, e0022, e4, e1, e06, e00225, e01, e001,
    e0001, e0002, e2, e45, e60, e10, e15, e05, e20, e5]

/-- Concrete instance of C8's theorem: the default-constructed parameter
record is at 6-significant-digit precision, so it round-trips through the
scene file exactly. -/
theorem saveScene_loadScene_roundtrip_witness :
    loadScene (saveScene defaultParams) (initSim defaultParams) = initSim defaultParams :=
  (saveScene_loadScene_roundtrip defaultParams (initSim defaultParams) (by decide)).2.2.1
    sig6Params_defaultParams

/-- C8 (counterexample).  As frozen, C8 asserts the loaded record is identical
to the saved one for every reachable record; but `saveScene` prints floats at
the ostream default of 6 significant digits.  The record with
`w_k = 0.0234567891` — reachable, since `loadScene` itself accepts any decimal
in a hand-written scene file and stores it in `params` — saves `w_k` as
`0.0234568`, so saving and re-loading it yields a different record. -/
theorem saveScene_loadScene_lossy_counterexample :
    (loadScene (saveScene { defaultParams with w_k := 0.0234567891 })
        (initSim { defaultParams with w_k := 0.0234567891 })).params ≠
      { defaultParams with w_k := 0.0234567891 } := by
  intro hEq
  have h := loadParams_saveScene { defaultParams with w_k := 0.0234567891 }
    (initSim { defaultParams with w_k := 0.0234567891 }).params (by decide)
  rw [show (loadScene (saveScene { defaultParams with w_k := 0.0234567891 })
        (initSim { defaultParams with w_k := 0.0234567891 })).params =
      loadParams (saveScene { defaultParams with w_k := 0.0234567891 })
        (initSim { defaultParams with w_k := 0.0234567891 }).params from rfl, h] at hEq
  have hw := congrArg Params.w_k hEq
  have hsig : sig6 (0.0234567891 : ℝ) = 0.0234568 := by
    have hdiv : (0.0234567891 : ℝ) / (10 : ℝ) ^ ((-2 : ℤ) - 5) = 234567.891 := by
      norm_num
    have hm : round ((0.0234567891 : ℝ) / (10 : ℝ) ^ ((-2 : ℤ) - 5)) = 234568 := by
      rw [hdiv, round_eq, show (234567.891 : ℝ) + 1 / 2 = 234568.391 by norm_num,
        Int.floor_eq_iff]
      constructor <;> push_cast <;> norm_num
    rw [sig6_eval (k := -2) (m := 234568) (by norm_num) (by norm_num) (by norm_num) hm]
    norm_num
  rw [show (sig6Params { defaultParams with w_k := 0.0234567891 }).w_k =
      sig6 (0.0234567891 : ℝ) from rfl,
    show ({ defaultParams with w_k := 0.0234567891 } : Params).w_k = (0.0234567891 : ℝ)
      from rfl, hsig] at hw
  norm_num at hw

/-- C7 (failing-input evaluation).  The initial particle buffer is a function
of the fresh `std::random_device` entropy drawn inside `resetParticles`, not
of any replayable seed: with identical parameters (one slot, one live
particle), two runs whose entropy draws differ (all-0 versus all-1) produce
different buffers, so no seed held identical across runs can make the buffers
byte-identical. -/
theorem resetParticles_depends_on_entropy :
    resetParticles 1 1 (fun _ => 0) ≠ resetParticles 1 1 (fun _ => 1) := by
  intro hEq
  have h0 := congrArg (fun l => (l.getD 0 deadParticle).x) hEq
  simp [resetParticles, show List.range 1 = [0] from rfl] at h0

end Hyprlenia

end
